import Mathlib

/-!
Verification development for the SeoAgentPro backend
(`src/backend/app`): shallow Lean embeddings of the scan-orchestration
code (ReAct autonomous loop, mode pipeline, streaming routes, fetch
cache, scoring engines) together with theorems settling the
specification claims about them.

Python dicts are embedded as insertion-ordered association lists,
`time.time()` as a `Nat` timestamp parameter, exceptions as an explicit
`Outcome` sum, and external collaborators (HTTP clients, LLM calls,
analysis submodules) as oracle function parameters.  Ghost counters
(number of tool executions, number of network fetches) instrument the
embeddings where a claim counts events; they never influence control
flow.
-/

namespace SeoAgentPro

/-! ## Python dict operations on association lists

A Python `dict` keeps one binding per key in insertion order;
assignment to an existing key overwrites in place, assignment to a new
key appends, `del` removes the single binding. -/

/-- `m.get(k)` / `k in m`: first binding for `k`, if any. -/
def lookupKey {α : Type} : List (String × α) → String → Option α
  | [], _ => none
  | (k', v') :: rest, k => if k' = k then some v' else lookupKey rest k

/-- `m[k] = v`: overwrite the binding for `k` in place, else append. -/
def dictSet {α : Type} : List (String × α) → String → α → List (String × α)
  | [], k, v => [(k, v)]
  | (k', v') :: rest, k, v =>
    if k' = k then (k, v) :: rest else (k', v') :: dictSet rest k v

/-- `del m[k]`: drop the binding for `k` (no-op when absent). -/
def eraseKey {α : Type} : List (String × α) → String → List (String × α)
  | [], _ => []
  | (k', v') :: rest, k => if k' = k then rest else (k', v') :: eraseKey rest k

/-- Python `pat in hay` on strings, on the character lists. -/
def hasSubChars : List Char → List Char → Bool
  | [], pat => pat.isEmpty
  | h :: t, pat => ((h :: t).take pat.length == pat) || hasSubChars t pat

/-- Python substring test `pat in hay`. -/
def strContains (hay pat : String) : Bool :=
  hasSubChars hay.toList pat.toList

/-! ## Resilient fetcher and result cache (`app/modules/scraper.py`)

The scrape result dict is abstracted to the fields the orchestration
code inspects: `error` (`data.get("error")`, truthy iff present since
the code only stores non-empty error messages), the
`structured_data_present` marker (missing/falsy modelled as `false`),
`scraper_used`, and an opaque `content` standing for all remaining
extracted fields. -/

structure ScrapeData where
  error : Option String
  structured_data_present : Bool
  scraper_used : String
  content : String
deriving DecidableEq, Repr

/-- One `_scrape_cache` slot: `{ "data": {...}, "ts": float }`
(`time.time()` embedded as a `Nat` timestamp). -/
structure CacheEntry where
  data : ScrapeData
  ts : Nat
deriving DecidableEq, Repr

/-- The module-level `_scrape_cache` dict, keyed by URL. -/
abbrev Cache : Type := List (String × CacheEntry)

/-- `_CACHE_TTL_SECONDS = 300` (5 minutes). -/
def CACHE_TTL_SECONDS : Nat := 300

/-- `_CACHE_MAX_SIZE = 50`. -/
def CACHE_MAX_SIZE : Nat := 50

/-- `_cache_get(url)`: return the cached value if inserted less than
TTL ago, else evict the stale entry and miss.  Returns the value and
the (possibly shrunk) cache.  `time.time()` is the `now` argument;
`now - ts` uses `Nat` truncated subtraction, which agrees with the
Python float comparison `(now - ts) < 300` for all `ts` (a negative
difference and a truncated-to-zero one are both `< 300`). -/
def cache_get (cache : Cache) (url : String) (now : Nat) :
    Option ScrapeData × Cache :=
  match lookupKey cache url with
  | some e =>
    if now - e.ts < CACHE_TTL_SECONDS then (some e.data, cache)
    else (none, eraseKey cache url)
  | none => (none, cache)

/-- `min(_scrape_cache, key=lambda u: _scrape_cache[u]["ts"])`: the
first binding (in insertion order) with minimal timestamp, as Python's
`min` replaces the running best only on a strictly smaller key. -/
def oldestEntry : Cache → Option (String × CacheEntry)
  | [] => none
  | q :: rest =>
    match oldestEntry rest with
    | none => some q
    | some q' => if q'.2.ts < q.2.ts then some q' else some q

/-- `_cache_set(url, data)`: when at capacity (`len >= 50`) evict the
single oldest entry by timestamp, then insert/overwrite. -/
def cache_set (cache : Cache) (url : String) (data : ScrapeData)
    (now : Nat) : Cache :=
  let cache' :=
    if CACHE_MAX_SIZE ≤ List.length cache then
      match oldestEntry cache with
      | some q => eraseKey cache q.1
      | none => cache
    else cache
  dictSet cache' url ⟨data, now⟩

/-- The escalating fetch chain inside `smart_scrape_url` (the part
between the cache check and the cache write; it touches neither the
cache nor the clock).  Oracles: `requestsFetch` is the whole
`scrape_url` tier (requests + retries; it returns an error dict, never
raises), `playwrightFetch` is `fetch_page_playwright` (returns HTML or
an `"ERROR..."` string), `extractRendered` is
`extract_seo_elements_pure` on the rendered HTML.  Returns the data
and a ghost count of browser-tier invocations (0 or 1); the full
`smart_scrape_url` adds 1 for the always-performed requests tier, so
its count is the number of underlying network fetches of the call.
The ghost counters do not influence control flow.  `html and not
html.startswith("ERROR")` is the non-empty-and-not-error test. -/
def smart_scrape_fetch (requestsFetch : String → ScrapeData)
    (playwrightFetch : String → String)
    (extractRendered : String → String → ScrapeData)
    (url : String) : ScrapeData × Nat :=
  let data0 : ScrapeData :=
    { requestsFetch url with scraper_used := "requests" }
  if data0.error.isSome || !data0.structured_data_present then
    let html := playwrightFetch url
    if html ≠ "" && html.take 5 ≠ "ERROR" then
      ({ extractRendered html url with scraper_used := "playwright" }, 1)
    else (data0, 1)
  else (data0, 0)

/-- `smart_scrape_url(url)` proper: cache check, the fetch chain, then
caching of non-error results. -/
def smart_scrape_url (requestsFetch : String → ScrapeData)
    (playwrightFetch : String → String)
    (extractRendered : String → String → ScrapeData)
    (cache : Cache) (url : String) (now : Nat) :
    ScrapeData × Cache × Nat :=
  match cache_get cache url now with
  | (some cached, cache') => (cached, cache', 0)
  | (none, cache') =>
    let step := smart_scrape_fetch requestsFetch playwrightFetch
      extractRendered url
    let cache'' :=
      if step.1.error.isNone then cache_set cache' url step.1 now else cache'
    (step.1, cache'', 1 + step.2)

/-! ## Scoring (`app/modules/seo_rules.py`, `app/modules/graph_tools.py`)

An issue/error dict is abstracted to the keys the scoring code reads,
each optional to mirror `err.get(key, default)` on possibly missing
keys. -/

structure Issue where
  category : Option String
  penalty : Option Int
  severity : Option String
deriving DecidableEq, Repr

/-- `CATEGORY_WEIGHTS` from `seo_rules.py`.  Python floats are embedded
as the exact rationals they denote; every property proved here (sign of
weight sums, zero-divisor detection, clamping) is insensitive to the
float/rational distinction because all weights are positive and a sum
of positive floats is positive and is `0.0` only when empty. -/
def CATEGORY_WEIGHTS : List (String × ℚ) :=
  [("technical", 35/100), ("onpage", 30/100), ("content", 20/100),
   ("performance", 10/100), ("other", 5/100), ("ux", 5/100),
   ("security", 5/100)]

/-- `CATEGORY_WEIGHTS.get(cat, 0.05)`. -/
def catWeight (cat : String) : ℚ :=
  (lookupKey CATEGORY_WEIGHTS cat).getD (5/100)

/-- One pass of the per-category penalty accumulation inside
`SEOScoringEngine.score_by_category` (`penalties.setdefault(cat, 0)`
followed by `penalties[cat] += err.get("penalty", 0)`), keeping Python
dict insertion order. -/
def penaltiesStep (acc : List (String × Int)) (e : Issue) :
    List (String × Int) :=
  let cat := e.category.getD "other"
  match lookupKey acc cat with
  | some p => dictSet acc cat (p + e.penalty.getD 0)
  | none => acc ++ [(cat, e.penalty.getD 0)]

/-- The `for err in self.errors` accumulation of
`SEOScoringEngine.score_by_category`. -/
def penaltiesByCategory (errors : List Issue) : List (String × Int) :=
  errors.foldl penaltiesStep []

/-- `SEOScoringEngine.score_by_category`: `max(0, 100 - penalty)` per
category. -/
def score_by_category (errors : List Issue) : List (String × Int) :=
  (penaltiesByCategory errors).map (fun p => (p.1, max 0 (100 - p.2)))

/-- `SEOScoringEngine.weighted_total_score`.  `none` embeds the
`ZeroDivisionError` raised when `total_weights` is zero.  Python's
one-argument `round` is embedded as Mathlib's `round` (they differ only
on exact half-integer ties, which none of the claims depend on). -/
def weighted_total_score (errors : List Issue)
    (performance_score : Option Int) : Option Int :=
  let cat_scores := score_by_category errors
  let total : ℚ :=
    cat_scores.foldl (fun t p => t + (p.2 : ℚ) * catWeight p.1) 0
  let total_weights : ℚ :=
    cat_scores.foldl (fun t p => t + catWeight p.1) 0
  let total : ℚ := match performance_score with
    | some p => total + (p : ℚ) * (10/100)
    | none => total
  let total_weights : ℚ := match performance_score with
    | some _ => total_weights + 10/100
    | none => total_weights
  if total_weights = 0 then none
  else some (min (max (round (total / total_weights)) 0) 100)

/-- `SEOScoringEngine.generate_output`, restricted to the scoring
fields (the echo fields `errors`, `errors_by_category`,
`severity_summary` are direct copies of inputs and are omitted).
Propagates the zero-divisor failure of `weighted_total_score`. -/
def generate_output (errors : List Issue)
    (performance_score : Option Int) : Option (Int × List (String × Int)) :=
  match weighted_total_score errors performance_score with
  | some s => some (s, score_by_category errors)
  | none => none

/-- `calculate_seo_score` from `graph_tools.py`: starts at 100 and
subtracts, per issue, the issue's `penalty` (default 5) unless the
lower-cased category contains one of the override markers
(`critical` → 20, `security` → 30, `technical` → 10, `content` → 5);
clamped below at 0 at the end. -/
def effectivePenalty (i : Issue) : Int :=
  let cat := (i.category.getD "").toLower
  if strContains cat "critical" then 20
  else if strContains cat "security" then 30
  else if strContains cat "technical" then 10
  else if strContains cat "content" then 5
  else i.penalty.getD 5

/-- `calculate_seo_score(issues)` (`graph_tools.py`). -/
def calculate_seo_score (issues : List Issue) : Int :=
  max 0 (issues.foldl (fun s i => s - effectivePenalty i) 100)

/-! ## ReAct autonomous orchestrator
(`app/modules/agents/react_orchestrator.py`)

The LLM decision call (`_reason_next_action`) and the tool bodies
(`_run_tool`) are external collaborators; they are embedded as oracle
functions of the current run state (the state carries the iteration
counter, so a state-indexed oracle captures any sequence of
behaviours, including one that never stops).  `_reason_next_action`
returning `none` embeds its `except` branch (LLM failure) as well as a
falsy parsed payload; `_run_tool` raising is the `.raises` outcome. -/

/-- A structured decision payload:
`{reasoning, next_action, stop_after, confidence}` (`expected_value`
and `confidence` are only echoed into logs and are not modelled). -/
structure Decision where
  next_action : String
  reasoning : String
  stop_after : Bool
deriving DecidableEq, Repr

/-- A value stored in `state["findings"]`: either the tool's returned
dict (opaque to the orchestrator) or the `{"error": str(e)}` marker
written by `_execute_action`'s exception handler. -/
inductive Finding where
  | data (v : String)
  | errorMarker (msg : String)
deriving DecidableEq, Repr

/-- The outcome of one `_run_tool` invocation: a returned dict or a
raised exception. -/
inductive ToolOutcome where
  | ok (v : String)
  | raises (msg : String)
deriving DecidableEq, Repr

/-- Whether an outcome is a normal return. -/
def ToolOutcome.isOk : ToolOutcome → Bool
  | .ok _ => true
  | .raises _ => false

/-- `AVAILABLE_TOOLS`, with each tool's cost class already translated
through `cost_map = {"low": 1, "medium": 2, "high": 4, "very_high": 8}`
(the only consumption of the `cost` string in the orchestrator). -/
def AVAILABLE_TOOLS : List (String × Nat) :=
  [("scrape_url", 1), ("detect_seo_issues", 1),
   ("run_technical_checks", 2), ("analyze_performance", 4),
   ("analyze_competitors", 4), ("find_top_competitors", 8),
   ("analyze_authority", 2), ("optimize_keywords", 2),
   ("generate_fixes", 2), ("create_seo_strategy", 4),
   ("create_roadmap", 4), ("calculate_score", 1)]

/-- `self.state` of `ReActOrchestrator` (the `options` dict is consumed
only inside the tool oracles and is not replicated here).
`steps_executed` is a ghost counter of `_run_tool` invocations; it
never influences control flow. -/
structure ReActState where
  url : String
  completed_actions : List String
  findings : List (String × Finding)
  iteration : Nat
  total_cost_estimate : Nat
  steps_executed : Nat
deriving DecidableEq, Repr

/-- The state initialised at the top of `execute` / `execute_stream`. -/
def ReActInit (url : String) : ReActState :=
  { url := url, completed_actions := [], findings := [], iteration := 0,
    total_cost_estimate := 0, steps_executed := 0 }

/-- `_parse_decision(content)`: the argument is the result of the
structured-JSON parse attempt (fence stripping plus `json.loads`);
any parse failure is replaced by the literal fallback dict
`{"next_action": "STOP", "reasoning": "Parse error",
"stop_after": True}`. -/
def parse_decision (parsed : Option Decision) : Decision :=
  match parsed with
  | some d => d
  | none =>
    { next_action := "STOP", reasoning := "Parse error", stop_after := true }

/-- `_execute_action(decision)`: if the chosen action is a known tool,
run it; on return store the result in `findings`, append the action to
`completed_actions` and add the tool cost; on a raise store only the
`{"error": str(e)}` marker in `findings`.  An unknown action is a
silent no-op. -/
def execute_action (runTool : String → ReActState → ToolOutcome)
    (d : Decision) (s : ReActState) : ReActState :=
  match lookupKey AVAILABLE_TOOLS d.next_action with
  | some cost =>
    match runTool d.next_action s with
    | .ok v =>
      { s with
        completed_actions := s.completed_actions ++ [d.next_action],
        findings := dictSet s.findings d.next_action (.data v),
        total_cost_estimate := s.total_cost_estimate + cost,
        steps_executed := s.steps_executed + 1 }
    | .raises e =>
      { s with
        findings := dictSet s.findings d.next_action (.errorMarker e),
        steps_executed := s.steps_executed + 1 }
  | none => s

/-- The `while self.state["iteration"] < self.max_iterations` loop of
`execute`, with the structural `fuel` bounding the recursion depth; the
Python guard is checked on every pass exactly as in the source, so with
sufficient fuel (each pass increments `iteration` by one, see
`reactLoopF_fuel_irrelevant`) the embedding computes the loop's exit
state.
Alongside the final state it returns the trace of every intermediate
state (after the iteration increment and after the action execution),
so that "at any point of the run" properties can be stated. -/
def reactLoopF (decide : ReActState → Option Decision)
    (runTool : String → ReActState → ToolOutcome) (maxIter : Nat) :
    Nat → ReActState → ReActState × List ReActState
  | 0, s => (s, [])
  | fuel + 1, s =>
    if s.iteration < maxIter then
      let s1 : ReActState := { s with iteration := s.iteration + 1 }
      match decide s1 with
      | none => (s1, [s1])
      | some d =>
        if d.next_action = "STOP" then (s1, [s1])
        else
          let s2 := execute_action runTool d s1
          if d.stop_after then (s2, [s1, s2])
          else
            let rest := reactLoopF decide runTool maxIter fuel s2
            (rest.1, s1 :: s2 :: rest.2)
    else (s, [])

/-- `_compile_final_report`, restricted to the orchestration fields
(the frontend projections `seo_data`/`issues`/`seo_score`/`fixes` and
the textual `summary`/`reasoning_log` are payload re-arrangements of
the opaque findings and are not replicated). -/
structure FinalReport where
  url : String
  mode : String
  iterations_used : Nat
  max_iterations : Nat
  tools_executed : List String
  cost_estimate : Nat
  findings : List (String × Finding)
deriving DecidableEq, Repr

/-- `_compile_final_report`. -/
def compileFinalReport (maxIter : Nat) (s : ReActState) : FinalReport :=
  { url := s.url, mode := "autonomous", iterations_used := s.iteration,
    max_iterations := maxIter, tools_executed := s.completed_actions,
    cost_estimate := s.total_cost_estimate, findings := s.findings }

/-- `ReActOrchestrator.execute(url)`: run the loop from the initial
state (fuel `maxIter` suffices: the initial iteration count is 0 and
each pass increments it). -/
def ReActExecute (decide : ReActState → Option Decision)
    (runTool : String → ReActState → ToolOutcome) (maxIter : Nat)
    (url : String) : FinalReport :=
  compileFinalReport maxIter
    (reactLoopF decide runTool maxIter maxIter (ReActInit url)).1

/-- The streamed SSE events of `execute_stream`. -/
inductive StreamEvent where
  | log (message : String) (step : String) (status : String)
  | reasoningEv (iteration : Nat) (reasoningText : String) (action : String)
  | payload (event : String) (value : Finding)
  | done (report : FinalReport)
deriving DecidableEq, Repr

/-- The tool-specific intermediate events of `execute_stream`
(`scrape`, `onpage_errors`, `seo_score`, `technical`, `performance`,
`fixes`); payload projections such as `result.get("issues", [])` carry
the stored finding opaquely. -/
def streamToolEvent (action : String) (f : Finding) : List StreamEvent :=
  if action = "scrape_url" then [.payload "scrape" f]
  else if action = "detect_seo_issues" then [.payload "onpage_errors" f]
  else if action = "calculate_score" then [.payload "seo_score" f]
  else if action = "run_technical_checks" then [.payload "technical" f]
  else if action = "analyze_performance" then [.payload "performance" f]
  else if action = "generate_fixes" then [.payload "fixes" f]
  else []

/-- The `while` loop of `execute_stream`: identical control flow to
`reactLoopF`, additionally yielding the SSE events of each pass. -/
def reactStreamF (decide : ReActState → Option Decision)
    (runTool : String → ReActState → ToolOutcome) (maxIter : Nat) :
    Nat → ReActState → ReActState × List StreamEvent
  | 0, s => (s, [])
  | fuel + 1, s =>
    if s.iteration < maxIter then
      let s1 : ReActState := { s with iteration := s.iteration + 1 }
      let thinking : StreamEvent :=
        .log ("🧠 AI thinking... (iteration " ++ toString s1.iteration ++ ")")
          "reasoning" "running"
      match decide s1 with
      | none =>
        (s1, [thinking,
              .log "✅ Agent decided analysis is complete" "reasoning" "done"])
      | some d =>
        if d.next_action = "STOP" then
          (s1, [thinking,
                .log "✅ Agent decided analysis is complete" "reasoning" "done"])
        else
          let a := d.next_action
          let s2 := execute_action runTool d s1
          let passEvents : List StreamEvent :=
            [thinking, .reasoningEv s1.iteration d.reasoning a,
             .log ("⚙️ Executing: " ++ a) a "running"] ++
            (match lookupKey s2.findings a with
             | some f => streamToolEvent a f
             | none => []) ++
            [.log ("✓ " ++ a ++ " complete") a "done"]
          if d.stop_after then
            (s2, passEvents ++
              [.log "✅ Agent reached stopping criteria" "reasoning" "done"])
          else
            let rest := reactStreamF decide runTool maxIter fuel s2
            (rest.1, passEvents ++ rest.2)
    else (s, [])

/-- `ReActOrchestrator.execute_stream(url)`: initial log, the streamed
loop, the compile log and the single terminal `done` event. -/
def ReActExecuteStream (decide : ReActState → Option Decision)
    (runTool : String → ReActState → ToolOutcome) (maxIter : Nat)
    (url : String) : ReActState × List StreamEvent :=
  let r := reactStreamF decide runTool maxIter maxIter (ReActInit url)
  (r.1,
    .log ("🤖 Starting autonomous analysis (max " ++ toString maxIter ++
        " iterations)") "init" "running" :: r.2 ++
      [.log "📊 Compiling final report..." "compile" "running",
       .done (compileFinalReport maxIter r.1)])

/-! ## Streaming scan routes
(`app/routes/scan_full.py`, `app/routes/agent_scan.py`)

The SSE generators are embedded at the granularity of the emitted
event names: each analysis step is an oracle whose raise/return
behaviour drives the generator's control flow exactly as the source's
`try`/`except` structure does.  Steps whose failures the source
catches locally (performance, authority, the four AI modules, the
competitor keyword and strategy blocks) emit their event whether or
not they fail — only the payload differs — so at event-name
granularity they need no oracle.  Steps outside any inner handler
propagate to the generator's outer `except`, which emits the terminal
`error` event. -/

/-- Step oracles for `scan_full_stream.event_generator`.  `technical1`
and `technical2` are the two successive `run_technical_checks` calls;
`technical2Sitemap` is `technical.get("sitemap_url")` of the second
result; `score` is the `SEOScoringEngine` construction plus
`generate_output`; `ranking` covers `compute_simple_scores` and
`rank_competitor`; `radar` is `radar_payload`. -/
structure ScanFullOracles where
  technical1 : ToolOutcome
  detect : ToolOutcome
  technical2 : ToolOutcome
  technical2Sitemap : Option String
  sitemap : ToolOutcome
  score : ToolOutcome
  compTechnical : ToolOutcome
  ranking : ToolOutcome
  radar : ToolOutcome
deriving DecidableEq, Repr

/-- The event-name sequence emitted by
`scan_full_stream.event_generator`.  `scraped` is the
`smart_scrape_url` result: the generator inspects it nowhere — in
particular it never branches on `scraped["error"]` — so a failed fetch
flows into every subsequent step unchecked. -/
def scanFullEvents (o : ScanFullOracles) (scraped : ScrapeData)
    (competitor_url : Option String) (target_keywords : List String) :
    List String :=
  let evA := ["scrape"]
  match o.technical1 with
  | .raises _ => evA ++ ["error"]
  | .ok _ =>
  match o.detect with
  | .raises _ => evA ++ ["error"]
  | .ok _ =>
  let evB := evA ++ ["onpage_errors"] ++
    (if target_keywords.isEmpty then [] else ["keyword_analysis"]) ++
    ["technical"]
  match o.technical2 with
  | .raises _ => evB ++ ["error"]
  | .ok _ =>
  let evC := evB ++ ["technical"]
  let sitemapStep : List String × Bool :=
    match o.technical2Sitemap with
    | some _ =>
      match o.sitemap with
      | .raises _ => (["error"], false)
      | .ok _ => (["sitemap_analysis"], true)
    | none => (["sitemap_analysis"], true)
  if !sitemapStep.2 then evC ++ sitemapStep.1
  else
  let evD := evC ++ sitemapStep.1 ++ ["performance", "authority"]
  match o.score with
  | .raises _ => evD ++ ["error"]
  | .ok _ =>
  let evE := evD ++ ["seo_score", "ai_autofix", "ai_schema",
    "ai_expanded_content", "ai_roadmap"]
  match competitor_url with
  | none => evE ++ ["done"]
  | some _ =>
    match o.compTechnical with
    | .raises _ => evE ++ ["error"]
    | .ok _ =>
    match o.ranking with
    | .raises _ => evE ++ ["error"]
    | .ok _ =>
    match o.radar with
    | .raises _ => evE ++ ["ranking", "error"]
    | .ok _ =>
      evE ++ ["ranking", "radar", "keyword_analysis", "ai_strategy", "done"]

/-- Step oracles for `agent_scan_stream.event_generator`
(`app/routes/agent_scan.py`).  `keywordStep` is
`analyze_keyword_presence`, which subscripts `scraped["content"]` and
so can raise a `KeyError`; `techSitemap` is
`technical.get("sitemap_url")`. -/
structure AgentScanOracles where
  detect : ToolOutcome
  keywordStep : ToolOutcome
  technical : ToolOutcome
  techSitemap : Option String
  sitemap : ToolOutcome
deriving DecidableEq, Repr

/-- The event-name sequence emitted by
`agent_scan_stream.event_generator`.  The source's `try` body ends
right after the sitemap event, at the comment
`# ...existing code for performance, authority, etc...`: no `done`
event is ever yielded, so the success path terminates the stream with
no terminal event. -/
def agentScanEvents (o : AgentScanOracles) (scraped : ScrapeData)
    (target_keywords : List String) : List String :=
  let evA := ["scrape"]
  match o.detect with
  | .raises _ => evA ++ ["error"]
  | .ok _ =>
  let evB := evA ++ ["onpage_errors"]
  let kwStep : List String × Bool :=
    if target_keywords.isEmpty then ([], true)
    else
      match o.keywordStep with
      | .raises _ => (["error"], false)
      | .ok _ => (["keyword_analysis"], true)
  if !kwStep.2 then evB ++ kwStep.1
  else
  let evC := evB ++ kwStep.1
  match o.technical with
  | .raises _ => evC ++ ["error"]
  | .ok _ =>
  let evD := evC ++ ["technical"]
  match o.techSitemap with
  | some _ =>
    match o.sitemap with
    | .raises _ => evD ++ ["error"]
    | .ok _ => evD ++ ["sitemap_analysis"]
  | none => evD ++ ["sitemap_analysis"]

/-- An SSE event name that signals end-of-stream to a consumer. -/
def isTerminalEvent (e : String) : Bool :=
  e = "done" || e = "error"

/-- Number of terminal events in an emitted sequence. -/
def terminalCount (evs : List String) : Nat :=
  (evs.filter isTerminalEvent).length

/-! ## Mode pipeline runner
(`UnifiedScanOrchestrator` in `app/modules/graph_agent.py`)

The sequential-mode workflow engine: a mode maps to a fixed node list,
`execute_stream` iterates it with a per-node `try`/`except` that logs
an error entry and continues.  Nodes are embedded for the `quick` mode
subset (`scrape`, `detect_issues`, `score`); the dispatch branches for
the nodes that `quick` never reaches (`technical`, `performance`,
`fixes`, `competitors`, `strategy`, `roadmap`, `report`) are elided,
and an unmatched node name falls through as the source's
`_execute_node` does (no `else` branch: a silent no-op). -/

/-- A step result: the returned value or a raised exception. -/
inductive StepResult (α : Type) where
  | ok (v : α)
  | raises (msg : String)
deriving DecidableEq, Repr

/-- `MODES["quick"]`. -/
def MODES_quick : List String := ["scrape", "detect_issues", "score"]

/-- The orchestrator state fields read/written by the `quick` nodes:
`seo_data`, `issues`, `seo_score` (initially `0`), and the
`state.get("performance_data", {}).get("performance_score")` lookup
(`none` while the performance node has not run). -/
structure PipelineState where
  seo_data : Option ScrapeData
  issues : List Issue
  seo_score : Int
  performance_score : Option Int
deriving DecidableEq, Repr

/-- The state initialised at the top of
`UnifiedScanOrchestrator.execute_stream`. -/
def PipelineInit : PipelineState :=
  { seo_data := none, issues := [], seo_score := 0,
    performance_score := none }

/-- Oracles for the externally-backed `quick` nodes:
`_node_scrape` (`smart_scrape_url`) and `_node_detect_issues`
(`detect_seo_issues_unified`). -/
structure PipelineOracles where
  scrape : StepResult ScrapeData
  detect : StepResult (List Issue)
deriving DecidableEq, Repr

/-- `_execute_node(node)` for the `quick` nodes.  `_node_score` builds
`SEOScoringEngine(issues, performance_score=perf)` and stores
`weighted_total_score()`; its zero-divisor failure raises. -/
def execute_node (o : PipelineOracles) (node : String)
    (s : PipelineState) : StepResult PipelineState :=
  if node = "scrape" then
    match o.scrape with
    | .ok d => .ok { s with seo_data := some d }
    | .raises e => .raises e
  else if node = "detect_issues" then
    match o.detect with
    | .ok issues => .ok { s with issues := issues }
    | .raises e => .raises e
  else if node = "score" then
    match weighted_total_score s.issues s.performance_score with
    | some n => .ok { s with seo_score := n }
    | none => .raises "ZeroDivisionError: division by zero"
  else .ok s

/-- An event of the mode pipeline's SSE stream: a `log` line with the
node name and status, a node-specific intermediate payload event, or
the final `done` event. -/
inductive PipeEvent where
  | log (node : String) (status : String)
  | payload (name : String)
  | doneEv
deriving DecidableEq, Repr

/-- The intermediate-result event emitted after a node completes
(`quick` subset; the events of the elided nodes are likewise elided). -/
def pipelineDataEvent (node : String) : List PipeEvent :=
  if node = "scrape" then [.payload "scrape"]
  else if node = "detect_issues" then [.payload "onpage_errors"]
  else if node = "score" then [.payload "seo_score"]
  else []

/-- The `for node in nodes` loop of
`UnifiedScanOrchestrator.execute_stream`: per node, a `running` log,
the execution, then on success a `done` log plus the intermediate
event, and on a raise an `error` log — the loop continues either way.
After the last node the single `done` event is emitted. -/
def runPipelineStream (o : PipelineOracles) :
    List String → PipelineState → PipelineState × List PipeEvent
  | [], s => (s, [.doneEv])
  | n :: rest, s =>
    match execute_node o n s with
    | .ok s2 =>
      let r := runPipelineStream o rest s2
      (r.1, [.log n "running", .log n "done"] ++ pipelineDataEvent n ++ r.2)
    | .raises _ =>
      let r := runPipelineStream o rest s
      (r.1, [.log n "running", .log n "error"] ++ r.2)

/-- `UnifiedScanOrchestrator.execute_stream(url, mode="quick")`:
run the quick node list from the freshly initialised state. -/
def UnifiedExecuteStreamQuick (o : PipelineOracles) :
    PipelineState × List PipeEvent :=
  runPipelineStream o MODES_quick PipelineInit

/-- A cache filled to `_CACHE_MAX_SIZE` with distinct URLs at strictly
increasing timestamps (a concrete at-capacity state for evaluation). -/
def cacheAtCapacity : Cache :=
  (List.range CACHE_MAX_SIZE).map
    (fun i => ("https://site" ++ toString i ++ ".example",
      ⟨⟨none, true, "requests", ""⟩, i⟩))

/-! ## Helper lemmas -/

theorem lookupKey_dictSet_self {α : Type} (m : List (String × α))
    (k : String) (v : α) : lookupKey (dictSet m k v) k = some v := by
  induction m with
  | nil => simp [dictSet, lookupKey]
  | cons p rest ih =>
    by_cases h : p.1 = k
    · simp [dictSet, lookupKey, h]
    · simp [dictSet, lookupKey, h, ih]

theorem lookupKey_dictSet_ne {α : Type} (m : List (String × α))
    (k k' : String) (v : α) (hne : k' ≠ k) :
    lookupKey (dictSet m k v) k' = lookupKey m k' := by
  have hk : ¬(k = k') := fun hh => hne hh.symm
  induction m with
  | nil => simp [dictSet, lookupKey, hk]
  | cons p rest ih =>
    by_cases h : p.1 = k
    · rw [show dictSet (p :: rest) k v = (k, v) :: rest by
        simp [dictSet, h]]
      rw [lookupKey, lookupKey, if_neg hk, if_neg (h ▸ hk)]
    · rw [show dictSet (p :: rest) k v = p :: dictSet rest k v by
        simp [dictSet, h]]
      rw [lookupKey, lookupKey, ih]

theorem mem_dictSet {α : Type} (m : List (String × α)) (k : String)
    (v : α) (p : String × α) (hp : p ∈ dictSet m k v) :
    p = (k, v) ∨ p ∈ m := by
  induction m with
  | nil => simpa [dictSet] using hp
  | cons q rest ih =>
    by_cases h : q.1 = k
    · simp only [dictSet, h, if_pos rfl] at hp
      rcases List.mem_cons.mp hp with h1 | h1
      · exact Or.inl h1
      · exact Or.inr (List.mem_cons_of_mem _ h1)
    · simp only [dictSet, h, if_neg h] at hp
      rcases List.mem_cons.mp hp with h1 | h1
      · exact Or.inr (h1 ▸ List.mem_cons_self _ _)
      · rcases ih h1 with h2 | h2
        · exact Or.inl h2
        · exact Or.inr (List.mem_cons_of_mem _ h2)

theorem lookupKey_isSome_of_mem {α : Type} (m : List (String × α))
    (k : String) (v : α) (h : (k, v) ∈ m) :
    (lookupKey m k).isSome := by
  induction m with
  | nil => simp at h
  | cons q rest ih =>
    rcases List.mem_cons.mp h with h1 | h1
    · simp [lookupKey, ← h1]
    · by_cases h2 : q.1 = k
      · simp [lookupKey, h2]
      · simp [lookupKey, h2, ih h1]

theorem eraseKey_length {α : Type} (m : List (String × α)) (k : String)
    (h : (lookupKey m k).isSome) :
    (eraseKey m k).length + 1 = m.length := by
  induction m with
  | nil => simp [lookupKey] at h
  | cons q rest ih =>
    by_cases h2 : q.1 = k
    · simp [eraseKey, h2]
    · simp only [lookupKey, h2, if_neg h2] at h
      simp [eraseKey, h2, ← ih h]

theorem oldestEntry_spec (c : Cache) (p : String × CacheEntry)
    (h : oldestEntry c = some p) :
    p ∈ c ∧ ∀ q ∈ c, p.2.ts ≤ q.2.ts := by
  induction c generalizing p with
  | nil => simp [oldestEntry] at h
  | cons q rest ih =>
    rw [oldestEntry] at h
    rcases hq : oldestEntry rest with _ | q'
    · rw [hq] at h
      have hqp := Option.some.inj h
      subst hqp
      constructor
      · exact List.mem_cons_self _ _
      · intro r hr
        rcases List.mem_cons.mp hr with h1 | h1
        · simp [h1]
        · cases rest with
          | nil => simp at h1
          | cons z zs =>
            rw [oldestEntry] at hq
            rcases h2 : oldestEntry zs with _ | w <;> rw [h2] at hq <;>
              simp at hq
            by_cases h3 : w.2.ts < z.2.ts <;> simp [h3] at hq
    · rw [hq] at h
      have h2 : (if q'.2.ts < q.2.ts then some q' else some q) = some p := h
      by_cases hlt : q'.2.ts < q.2.ts
      · rw [if_pos hlt] at h2
        have hqp := Option.some.inj h2
        subst hqp
        obtain ⟨hmem, hmin⟩ := ih _ hq
        refine ⟨List.mem_cons_of_mem _ hmem, ?_⟩
        intro r hr
        rcases List.mem_cons.mp hr with h1 | h1
        · exact h1 ▸ le_of_lt hlt
        · exact hmin r h1
      · rw [if_neg hlt] at h2
        have hqp := Option.some.inj h2
        subst hqp
        obtain ⟨hmem, hmin⟩ := ih _ hq
        refine ⟨List.mem_cons_self _ _, ?_⟩
        intro r hr
        rcases List.mem_cons.mp hr with h1 | h1
        · simp [h1]
        · exact le_trans (le_of_not_lt hlt) (hmin r h1)

theorem oldestEntry_isSome (c : Cache) (hne : c ≠ []) :
    ∃ p, oldestEntry c = some p := by
  cases c with
  | nil => exact absurd rfl hne
  | cons q rest =>
    rcases hq : oldestEntry rest with _ | q'
    · exact ⟨q, by rw [oldestEntry, hq]⟩
    · refine ⟨if q'.2.ts < q.2.ts then q' else q, ?_⟩
      rw [oldestEntry, hq]
      show (if q'.2.ts < q.2.ts then some q' else some q) = _
      by_cases hlt : q'.2.ts < q.2.ts <;> simp [hlt]

theorem execute_action_iteration (runTool : String → ReActState → ToolOutcome)
    (d : Decision) (s : ReActState) :
    (execute_action runTool d s).iteration = s.iteration := by
  unfold execute_action
  rcases lookupKey AVAILABLE_TOOLS d.next_action with _ | cost
  · rfl
  · rcases runTool d.next_action s with v | e <;> rfl

theorem execute_action_steps (runTool : String → ReActState → ToolOutcome)
    (d : Decision) (s : ReActState) :
    (execute_action runTool d s).steps_executed ≤ s.steps_executed + 1 := by
  unfold execute_action
  rcases lookupKey AVAILABLE_TOOLS d.next_action with _ | cost
  · exact Nat.le_succ _
  · rcases runTool d.next_action s with v | e <;> simp

theorem reactLoopF_succ_exit (decide : ReActState → Option Decision)
    (runTool : String → ReActState → ToolOutcome) (maxIter fuel : Nat)
    (s : ReActState) (hguard : ¬s.iteration < maxIter) :
    reactLoopF decide runTool maxIter (fuel + 1) s = (s, []) := by
  rw [reactLoopF, if_neg hguard]

theorem reactLoopF_succ_none (decide : ReActState → Option Decision)
    (runTool : String → ReActState → ToolOutcome) (maxIter fuel : Nat)
    (s : ReActState) (hguard : s.iteration < maxIter)
    (hdec : decide { s with iteration := s.iteration + 1 } = none) :
    reactLoopF decide runTool maxIter (fuel + 1) s =
      ({ s with iteration := s.iteration + 1 },
       [{ s with iteration := s.iteration + 1 }]) := by
  simp only [reactLoopF, if_pos hguard, hdec]

theorem reactLoopF_succ_stop (decide : ReActState → Option Decision)
    (runTool : String → ReActState → ToolOutcome) (maxIter fuel : Nat)
    (s : ReActState) (d : Decision) (hguard : s.iteration < maxIter)
    (hdec : decide { s with iteration := s.iteration + 1 } = some d)
    (hstop : d.next_action = "STOP") :
    reactLoopF decide runTool maxIter (fuel + 1) s =
      ({ s with iteration := s.iteration + 1 },
       [{ s with iteration := s.iteration + 1 }]) := by
  simp only [reactLoopF, if_pos hguard, hdec]
  rw [if_pos hstop]

theorem reactLoopF_succ_last (decide : ReActState → Option Decision)
    (runTool : String → ReActState → ToolOutcome) (maxIter fuel : Nat)
    (s : ReActState) (d : Decision) (hguard : s.iteration < maxIter)
    (hdec : decide { s with iteration := s.iteration + 1 } = some d)
    (hstop : ¬d.next_action = "STOP") (hafter : d.stop_after = true) :
    reactLoopF decide runTool maxIter (fuel + 1) s =
      (execute_action runTool d { s with iteration := s.iteration + 1 },
       [{ s with iteration := s.iteration + 1 },
        execute_action runTool d { s with iteration := s.iteration + 1 }]) := by
  simp only [reactLoopF, if_pos hguard, hdec]
  rw [if_neg hstop, if_pos hafter]

theorem reactLoopF_succ_cont (decide : ReActState → Option Decision)
    (runTool : String → ReActState → ToolOutcome) (maxIter fuel : Nat)
    (s : ReActState) (d : Decision) (hguard : s.iteration < maxIter)
    (hdec : decide { s with iteration := s.iteration + 1 } = some d)
    (hstop : ¬d.next_action = "STOP") (hafter : d.stop_after = false) :
    reactLoopF decide runTool maxIter (fuel + 1) s =
      ((reactLoopF decide runTool maxIter fuel
          (execute_action runTool d
            { s with iteration := s.iteration + 1 })).1,
       { s with iteration := s.iteration + 1 } ::
         execute_action runTool d { s with iteration := s.iteration + 1 } ::
         (reactLoopF decide runTool maxIter fuel
           (execute_action runTool d
             { s with iteration := s.iteration + 1 })).2) := by
  simp only [reactLoopF, if_pos hguard, hdec]
  rw [if_neg hstop, if_neg (by simp [hafter])]

/-- The loop-body step preserves any property stable under the
iteration increment and under `_execute_action`; every state in the
trace and the final state satisfy it. -/
theorem reactLoopF_preserves (decide : ReActState → Option Decision)
    (runTool : String → ReActState → ToolOutcome) (maxIter : Nat)
    (P : ReActState → Prop)
    (hbump : ∀ s, P s → P { s with iteration := s.iteration + 1 })
    (hact : ∀ d s, P s → P (execute_action runTool d s)) :
    ∀ fuel s, P s →
      P (reactLoopF decide runTool maxIter fuel s).1 ∧
      ∀ t ∈ (reactLoopF decide runTool maxIter fuel s).2, P t := by
  intro fuel
  induction fuel with
  | zero => intro s hs; exact ⟨hs, by simp [reactLoopF]⟩
  | succ fuel ih =>
    intro s hs
    by_cases hguard : s.iteration < maxIter
    · have hs1 := hbump s hs
      rcases hdec : decide { s with iteration := s.iteration + 1 } with _ | d
      · rw [reactLoopF_succ_none decide runTool maxIter fuel s hguard hdec]
        exact ⟨hs1, by intro t ht; simp at ht; exact ht ▸ hs1⟩
      · by_cases hstop : d.next_action = "STOP"
        · rw [reactLoopF_succ_stop decide runTool maxIter fuel s d hguard
            hdec hstop]
          exact ⟨hs1, by intro t ht; simp at ht; exact ht ▸ hs1⟩
        · have hs2 := hact d _ hs1
          by_cases hafter : d.stop_after = true
          · rw [reactLoopF_succ_last decide runTool maxIter fuel s d hguard
              hdec hstop hafter]
            refine ⟨hs2, ?_⟩
            intro t ht
            rcases List.mem_cons.mp ht with h1 | h1
            · exact h1 ▸ hs1
            · simp at h1; exact h1 ▸ hs2
          · have hf : d.stop_after = false := by
              simpa using hafter
            rw [reactLoopF_succ_cont decide runTool maxIter fuel s d hguard
              hdec hstop hf]
            obtain ⟨hfin, htr⟩ := ih _ hs2
            refine ⟨hfin, ?_⟩
            intro t ht
            rcases List.mem_cons.mp ht with h1 | h1
            · exact h1 ▸ hs1
            · rcases List.mem_cons.mp h1 with h2 | h2
              · exact h2 ▸ hs2
              · exact htr t h2
    · rw [reactLoopF_succ_exit decide runTool maxIter fuel s hguard]
      exact ⟨hs, by simp⟩

/-- The circuit-breaker invariant: starting from a state whose ghost
execution count is below its iteration count and whose iteration count
is within the budget, the final state and every traced state keep the
iteration count within `maxIter`, and the execution count within the
iteration count. -/
theorem reactLoopF_bounds (decide : ReActState → Option Decision)
    (runTool : String → ReActState → ToolOutcome) (maxIter : Nat) :
    ∀ fuel s, s.steps_executed ≤ s.iteration → s.iteration ≤ maxIter →
      ((reactLoopF decide runTool maxIter fuel s).1.iteration ≤ maxIter ∧
       (reactLoopF decide runTool maxIter fuel s).1.steps_executed ≤
         (reactLoopF decide runTool maxIter fuel s).1.iteration) ∧
      ∀ t ∈ (reactLoopF decide runTool maxIter fuel s).2,
        t.iteration ≤ maxIter := by
  intro fuel
  induction fuel with
  | zero => intro s h1 h2; exact ⟨⟨h2, h1⟩, by simp [reactLoopF]⟩
  | succ fuel ih =>
    intro s h1 h2
    by_cases hguard : s.iteration < maxIter
    · have hi1 : s.iteration + 1 ≤ maxIter := hguard
      rcases hdec : decide { s with iteration := s.iteration + 1 } with _ | d
      · rw [reactLoopF_succ_none decide runTool maxIter fuel s hguard hdec]
        exact ⟨⟨hi1, Nat.le_succ_of_le h1⟩,
          by intro t ht; simp at ht; subst ht; exact hi1⟩
      · by_cases hstop : d.next_action = "STOP"
        · rw [reactLoopF_succ_stop decide runTool maxIter fuel s d hguard
            hdec hstop]
          exact ⟨⟨hi1, Nat.le_succ_of_le h1⟩,
            by intro t ht; simp at ht; subst ht; exact hi1⟩
        · have hit2 : (execute_action runTool d
              { s with iteration := s.iteration + 1 }).iteration =
              s.iteration + 1 := execute_action_iteration ..
          have hst2 : (execute_action runTool d
              { s with iteration := s.iteration + 1 }).steps_executed ≤
              s.iteration + 1 :=
            le_trans (execute_action_steps ..) (Nat.succ_le_succ h1)
          have h5 : (execute_action runTool d
              { s with iteration := s.iteration + 1 }).iteration ≤
              maxIter := by rw [hit2]; exact hi1
          have h6 : (execute_action runTool d
              { s with iteration := s.iteration + 1 }).steps_executed ≤
              (execute_action runTool d
                { s with iteration := s.iteration + 1 }).iteration := by
            rw [hit2]; exact hst2
          by_cases hafter : d.stop_after = true
          · rw [reactLoopF_succ_last decide runTool maxIter fuel s d hguard
              hdec hstop hafter]
            refine ⟨⟨h5, h6⟩, ?_⟩
            intro t ht
            rcases List.mem_cons.mp ht with h3 | h3
            · exact h3 ▸ hi1
            · simp at h3; subst h3; exact h5
          · have hf : d.stop_after = false := by
              simpa using hafter
            rw [reactLoopF_succ_cont decide runTool maxIter fuel s d hguard
              hdec hstop hf]
            obtain ⟨hfin, htr⟩ := ih _ h6 h5
            refine ⟨hfin, ?_⟩
            intro t ht
            rcases List.mem_cons.mp ht with h3 | h3
            · exact h3 ▸ hi1
            · rcases List.mem_cons.mp h3 with h4 | h4
              · subst h4; exact h5
              · exact htr t h4
    · rw [reactLoopF_succ_exit decide runTool maxIter fuel s hguard]
      exact ⟨⟨h2, h1⟩, by simp⟩

theorem reactStreamF_succ_exit (decide : ReActState → Option Decision)
    (runTool : String → ReActState → ToolOutcome) (maxIter fuel : Nat)
    (s : ReActState) (hguard : ¬s.iteration < maxIter) :
    reactStreamF decide runTool maxIter (fuel + 1) s = (s, []) := by
  rw [reactStreamF, if_neg hguard]

theorem reactStreamF_succ_none_fst (decide : ReActState → Option Decision)
    (runTool : String → ReActState → ToolOutcome) (maxIter fuel : Nat)
    (s : ReActState) (hguard : s.iteration < maxIter)
    (hdec : decide { s with iteration := s.iteration + 1 } = none) :
    (reactStreamF decide runTool maxIter (fuel + 1) s).1 =
      { s with iteration := s.iteration + 1 } := by
  simp only [reactStreamF, if_pos hguard, hdec]

theorem reactStreamF_succ_stop_fst (decide : ReActState → Option Decision)
    (runTool : String → ReActState → ToolOutcome) (maxIter fuel : Nat)
    (s : ReActState) (d : Decision) (hguard : s.iteration < maxIter)
    (hdec : decide { s with iteration := s.iteration + 1 } = some d)
    (hstop : d.next_action = "STOP") :
    (reactStreamF decide runTool maxIter (fuel + 1) s).1 =
      { s with iteration := s.iteration + 1 } := by
  simp only [reactStreamF, if_pos hguard, hdec]
  rw [if_pos hstop]

theorem reactStreamF_succ_last_fst (decide : ReActState → Option Decision)
    (runTool : String → ReActState → ToolOutcome) (maxIter fuel : Nat)
    (s : ReActState) (d : Decision) (hguard : s.iteration < maxIter)
    (hdec : decide { s with iteration := s.iteration + 1 } = some d)
    (hstop : ¬d.next_action = "STOP") (hafter : d.stop_after = true) :
    (reactStreamF decide runTool maxIter (fuel + 1) s).1 =
      execute_action runTool d { s with iteration := s.iteration + 1 } := by
  simp only [reactStreamF, if_pos hguard, hdec]
  rw [if_neg hstop, if_pos hafter]

theorem reactStreamF_succ_cont_fst (decide : ReActState → Option Decision)
    (runTool : String → ReActState → ToolOutcome) (maxIter fuel : Nat)
    (s : ReActState) (d : Decision) (hguard : s.iteration < maxIter)
    (hdec : decide { s with iteration := s.iteration + 1 } = some d)
    (hstop : ¬d.next_action = "STOP") (hafter : d.stop_after = false) :
    (reactStreamF decide runTool maxIter (fuel + 1) s).1 =
      (reactStreamF decide runTool maxIter fuel
        (execute_action runTool d
          { s with iteration := s.iteration + 1 })).1 := by
  simp only [reactStreamF, if_pos hguard, hdec]
  rw [if_neg hstop, if_neg (by simp [hafter])]

/-- The streaming loop drives the state exactly as the buffered loop
does (the two `while` bodies of `execute` and `execute_stream` perform
the same decisions and the same `_execute_action` calls, differing
only in the events yielded). -/
theorem reactStreamF_state (decide : ReActState → Option Decision)
    (runTool : String → ReActState → ToolOutcome) (maxIter : Nat) :
    ∀ fuel s, (reactStreamF decide runTool maxIter fuel s).1 =
      (reactLoopF decide runTool maxIter fuel s).1 := by
  intro fuel
  induction fuel with
  | zero => intro s; rfl
  | succ fuel ih =>
    intro s
    by_cases hguard : s.iteration < maxIter
    · rcases hdec : decide { s with iteration := s.iteration + 1 } with _ | d
      · rw [reactStreamF_succ_none_fst decide runTool maxIter fuel s hguard
          hdec, reactLoopF_succ_none decide runTool maxIter fuel s hguard hdec]
      · by_cases hstop : d.next_action = "STOP"
        · rw [reactStreamF_succ_stop_fst decide runTool maxIter fuel s d
            hguard hdec hstop, reactLoopF_succ_stop decide runTool maxIter
            fuel s d hguard hdec hstop]
        · by_cases hafter : d.stop_after = true
          · rw [reactStreamF_succ_last_fst decide runTool maxIter fuel s d
              hguard hdec hstop hafter, reactLoopF_succ_last decide runTool
              maxIter fuel s d hguard hdec hstop hafter]
          · have hf : d.stop_after = false := by
              simpa using hafter
            rw [reactStreamF_succ_cont_fst decide runTool maxIter fuel s d
              hguard hdec hstop hf, reactLoopF_succ_cont decide runTool
              maxIter fuel s d hguard hdec hstop hf, ih]
    · rw [reactStreamF_succ_exit decide runTool maxIter fuel s hguard,
        reactLoopF_succ_exit decide runTool maxIter fuel s hguard]

/-- Fuel fidelity: any fuel of at least `maxIter - iteration` passes
computes the same result, because every pass increments `iteration`;
so running with fuel `maxIter` from the initial state is exactly the
Python `while` loop. -/
theorem reactLoopF_fuel_irrelevant (decide : ReActState → Option Decision)
    (runTool : String → ReActState → ToolOutcome) (maxIter : Nat) :
    ∀ fuel fuel' s, maxIter - s.iteration ≤ fuel →
      maxIter - s.iteration ≤ fuel' →
      reactLoopF decide runTool maxIter fuel s =
        reactLoopF decide runTool maxIter fuel' s := by
  intro fuel
  induction fuel with
  | zero =>
    intro fuel' s h h'
    have hguard : ¬s.iteration < maxIter := by omega
    cases fuel' with
    | zero => rfl
    | succ f =>
      rw [reactLoopF, reactLoopF_succ_exit decide runTool maxIter f s hguard]
  | succ fuel ih =>
    intro fuel' s h h'
    cases fuel' with
    | zero =>
      have hguard : ¬s.iteration < maxIter := by omega
      rw [reactLoopF_succ_exit decide runTool maxIter fuel s hguard, reactLoopF]
    | succ f =>
      by_cases hguard : s.iteration < maxIter
      · rcases hdec : decide { s with iteration := s.iteration + 1 } with _ | d
        · rw [reactLoopF_succ_none decide runTool maxIter fuel s hguard hdec,
            reactLoopF_succ_none decide runTool maxIter f s hguard hdec]
        · by_cases hstop : d.next_action = "STOP"
          · rw [reactLoopF_succ_stop decide runTool maxIter fuel s d hguard
              hdec hstop, reactLoopF_succ_stop decide runTool maxIter f s d
              hguard hdec hstop]
          · by_cases hafter : d.stop_after = true
            · rw [reactLoopF_succ_last decide runTool maxIter fuel s d hguard
                hdec hstop hafter, reactLoopF_succ_last decide runTool maxIter
                f s d hguard hdec hstop hafter]
            · have hf : d.stop_after = false := by simpa using hafter
              rw [reactLoopF_succ_cont decide runTool maxIter fuel s d hguard
                hdec hstop hf, reactLoopF_succ_cont decide runTool maxIter
                f s d hguard hdec hstop hf]
              have hit2 : (execute_action runTool d
                  { s with iteration := s.iteration + 1 }).iteration =
                  s.iteration + 1 := execute_action_iteration ..
              rw [ih f _ (by omega) (by omega)]
      · rw [reactLoopF_succ_exit decide runTool maxIter fuel s hguard,
          reactLoopF_succ_exit decide runTool maxIter f s hguard]

theorem lookupKey_mem {α : Type} (m : List (String × α)) (k : String)
    (v : α) (h : lookupKey m k = some v) : (k, v) ∈ m := by
  induction m with
  | nil => simp [lookupKey] at h
  | cons q rest ih =>
    rw [lookupKey] at h
    by_cases h2 : q.1 = k
    · rw [if_pos h2] at h
      have h3 := Option.some.inj h
      exact List.mem_cons.mpr (Or.inl (by rw [← h2, ← h3]))
    · rw [if_neg h2] at h
      exact List.mem_cons_of_mem _ (ih h)

theorem lookupKey_cache_set_self (c : Cache) (url : String)
    (d : ScrapeData) (now : Nat) :
    lookupKey (cache_set c url d now) url = some ⟨d, now⟩ := by
  simp only [cache_set]
  exact lookupKey_dictSet_self _ _ _

theorem cache_get_after_set (c : Cache) (url : String) (d : ScrapeData)
    (t1 t2 : Nat) (hwin : t2 - t1 < CACHE_TTL_SECONDS) :
    cache_get (cache_set c url d t1) url t2 =
      (some d, cache_set c url d t1) := by
  unfold cache_get
  simp only [lookupKey_cache_set_self]
  rw [if_pos (show t2 - (CacheEntry.mk d t1).ts < CACHE_TTL_SECONDS
    from hwin)]

theorem smart_scrape_url_hit (rf : String → ScrapeData)
    (pf : String → String) (er : String → String → ScrapeData)
    (c : Cache) (url : String) (now : Nat) (d : ScrapeData)
    (h : (cache_get c url now).1 = some d) :
    smart_scrape_url rf pf er c url now = (d, (cache_get c url now).2, 0) := by
  unfold smart_scrape_url
  rcases hg : cache_get c url now with ⟨o, c2⟩
  rw [hg] at h
  simp only at h
  subst h
  rfl

theorem smart_scrape_url_miss (rf : String → ScrapeData)
    (pf : String → String) (er : String → String → ScrapeData)
    (c : Cache) (url : String) (now : Nat)
    (h : (cache_get c url now).1 = none) :
    smart_scrape_url rf pf er c url now =
      ((smart_scrape_fetch rf pf er url).1,
       (if (smart_scrape_fetch rf pf er url).1.error.isNone then
          cache_set (cache_get c url now).2 url
            (smart_scrape_fetch rf pf er url).1 now
        else (cache_get c url now).2),
       1 + (smart_scrape_fetch rf pf er url).2) := by
  unfold smart_scrape_url
  rcases hg : cache_get c url now with ⟨o, c2⟩
  rw [hg] at h
  simp only at h
  subst h
  rfl

theorem smart_scrape_fetch_count (rf : String → ScrapeData)
    (pf : String → String) (er : String → String → ScrapeData)
    (url : String) :
    (smart_scrape_fetch rf pf er url).2 =
      if ((rf url).error.isSome || !(rf url).structured_data_present) = true
      then 1 else 0 := by
  unfold smart_scrape_fetch
  by_cases h : ((rf url).error.isSome || !(rf url).structured_data_present)
      = true
  · rw [if_pos h, if_pos h]
    show (if (decide (pf url ≠ "") && decide ((pf url).take 5 ≠ "ERROR"))
          = true
        then ({ er (pf url) url with scraper_used := "playwright" }, (1 : Nat))
        else ({ rf url with scraper_used := "requests" }, (1 : Nat))).2 = 1
    split <;> rfl
  · rw [if_neg h, if_neg h]

theorem catWeight_pos (c : String) : 0 < catWeight c := by
  unfold catWeight
  rcases hl : lookupKey CATEGORY_WEIGHTS c with _ | w
  · norm_num
  · have hmem := lookupKey_mem _ _ _ hl
    simp only [Option.getD]
    simp only [CATEGORY_WEIGHTS, List.mem_cons, List.mem_singleton,
      Prod.mk.injEq, List.not_mem_nil, or_false] at hmem
    rcases hmem with ⟨_, rfl⟩ | ⟨_, rfl⟩ | ⟨_, rfl⟩ | ⟨_, rfl⟩ |
      ⟨_, rfl⟩ | ⟨_, rfl⟩ | ⟨_, rfl⟩ <;> norm_num

theorem dictSet_length {α : Type} (m : List (String × α)) (k : String)
    (v : α) : m.length ≤ (dictSet m k v).length := by
  induction m with
  | nil => simp [dictSet]
  | cons q rest ih =>
    by_cases h : q.1 = k
    · simp [dictSet, h]
    · simp only [dictSet, if_neg h, List.length_cons]
      omega

theorem penaltiesStep_length (acc : List (String × Int)) (e : Issue) :
    acc.length ≤ (penaltiesStep acc e).length := by
  unfold penaltiesStep
  rcases h : lookupKey acc (e.category.getD "other") with _ | p <;>
    simp only [h]
  · simp
  · exact dictSet_length ..

theorem penaltiesByCategory_ne_nil (errors : List Issue)
    (h : errors ≠ []) : penaltiesByCategory errors ≠ [] := by
  have key : ∀ (l : List Issue) (acc : List (String × Int)),
      acc.length ≤ (l.foldl penaltiesStep acc).length := by
    intro l
    induction l with
    | nil => intro acc; simp
    | cons e rest ih =>
      intro acc
      calc acc.length ≤ (penaltiesStep acc e).length := penaltiesStep_length ..
        _ ≤ _ := ih (penaltiesStep acc e)
  cases errors with
  | nil => exact absurd rfl h
  | cons e rest =>
    have h1 : (1 : Nat) ≤ (penaltiesByCategory (e :: rest)).length := by
      unfold penaltiesByCategory
      calc (1 : Nat) = (penaltiesStep [] e).length := by
            simp [penaltiesStep, lookupKey]
        _ ≤ _ := key rest (penaltiesStep [] e)
    intro hnil
    rw [hnil] at h1
    simp at h1

theorem foldl_weights_lb (l : List (String × Int)) (a : ℚ) :
    a ≤ l.foldl (fun t p => t + catWeight p.1) a := by
  induction l generalizing a with
  | nil => simp
  | cons q rest ih =>
    calc a ≤ a + catWeight q.1 := by
          have := catWeight_pos q.1; linarith
      _ ≤ _ := ih (a + catWeight q.1)

theorem foldl_weights_pos (l : List (String × Int)) (h : l ≠ []) :
    0 < l.foldl (fun t p => t + catWeight p.1) 0 := by
  cases l with
  | nil => exact absurd rfl h
  | cons q rest =>
    have h1 : (0 : ℚ) + catWeight q.1 ≤
        (q :: rest).foldl (fun t p => t + catWeight p.1) 0 :=
      foldl_weights_lb rest (0 + catWeight q.1)
    have := catWeight_pos q.1
    linarith

/-! ## Claim theorems -/

/-- C1: for every `max_iterations = N` and every behaviour of the
decision function and of the tools — including a decision function
that always requests continuation and never returns STOP — the
autonomous control loop (`ReActOrchestrator.execute` and
`execute_stream`) performs at most `N` step executions (the ghost
`steps_executed` counter of `_run_tool` invocations), and the state's
`iteration` counter never exceeds `N` at any point of the run (the
final state and every traced intermediate state). -/
theorem C1_circuit_breaker (decide : ReActState → Option Decision)
    (runTool : String → ReActState → ToolOutcome) (N : Nat)
    (url : String) :
    (ReActExecute decide runTool N url).iterations_used ≤ N ∧
    (reactLoopF decide runTool N N (ReActInit url)).1.steps_executed ≤ N ∧
    (∀ t ∈ (reactLoopF decide runTool N N (ReActInit url)).2,
      t.iteration ≤ N) ∧
    (ReActExecuteStream decide runTool N url).1.iteration ≤ N ∧
    (ReActExecuteStream decide runTool N url).1.steps_executed ≤ N := by
  obtain ⟨⟨hi, hs⟩, htr⟩ :=
    reactLoopF_bounds decide runTool N N (ReActInit url)
      (Nat.le_refl 0) (Nat.zero_le N)
  have hstream : (ReActExecuteStream decide runTool N url).1 =
      (reactLoopF decide runTool N N (ReActInit url)).1 :=
    reactStreamF_state decide runTool N N (ReActInit url)
  exact ⟨hi, le_trans hs hi, htr, by rw [hstream]; exact hi,
    by rw [hstream]; exact le_trans hs hi⟩

theorem C1_circuit_breaker_witness :
    (ReActExecute (fun _ => some ⟨"scrape_url", "continue", false⟩)
        (fun _ _ => .ok "data") 3 "https://example.com").iterations_used ≤ 3 ∧
    (reactLoopF (fun _ => some ⟨"scrape_url", "continue", false⟩)
        (fun _ _ => .ok "data") 3 3
        (ReActInit "https://example.com")).1.steps_executed ≤ 3 ∧
    (∀ t ∈ (reactLoopF (fun _ => some ⟨"scrape_url", "continue", false⟩)
        (fun _ _ => .ok "data") 3 3 (ReActInit "https://example.com")).2,
      t.iteration ≤ 3) ∧
    (ReActExecuteStream (fun _ => some ⟨"scrape_url", "continue", false⟩)
        (fun _ _ => .ok "data") 3 "https://example.com").1.iteration ≤ 3 ∧
    (ReActExecuteStream (fun _ => some ⟨"scrape_url", "continue", false⟩)
        (fun _ _ => .ok "data") 3
        "https://example.com").1.steps_executed ≤ 3 :=
  C1_circuit_breaker (fun _ => some ⟨"scrape_url", "continue", false⟩)
    (fun _ _ => .ok "data") 3 "https://example.com"

/-- C2 counterexample: a decision choosing `scrape_url` whose tool
execution raises leaves the state with
`findings = {"scrape_url": {"error": "boom"}}` while
`completed_actions` stays empty — a raising step does leave an entry
in `findings`, contradicting the claim that a step name appears in
`findings` only after appearing in `executed_steps` with a non-error
outcome. -/
theorem C2_counterexample :
    ((reactLoopF (fun _ => some ⟨"scrape_url", "reason", true⟩)
        (fun _ _ => .raises "boom") 1 1
        (ReActInit "https://example.com")).1.findings =
      [("scrape_url", Finding.errorMarker "boom")]) ∧
    ((reactLoopF (fun _ => some ⟨"scrape_url", "reason", true⟩)
        (fun _ _ => .raises "boom") 1 1
        (ReActInit "https://example.com")).1.completed_actions = []) := by
  decide

/-- C2 (amended): at every point of an autonomous run — the final
state and every traced intermediate state — every step name that is a
key of `findings` either has been appended to `completed_actions`
(its execution returned without raising), or maps to the
`{"error": ...}` marker written by `_execute_action`'s exception
handler; a step whose execution raises leaves exactly such an error
entry and is not appended to `completed_actions`. -/
theorem C2_findings_invariant (decide : ReActState → Option Decision)
    (runTool : String → ReActState → ToolOutcome) (N : Nat)
    (url : String) :
    (∀ k v, (k, v) ∈ (reactLoopF decide runTool N N
        (ReActInit url)).1.findings →
      k ∈ (reactLoopF decide runTool N N (ReActInit url)).1.completed_actions ∨
      ∃ e, v = Finding.errorMarker e) ∧
    (∀ t ∈ (reactLoopF decide runTool N N (ReActInit url)).2,
      ∀ k v, (k, v) ∈ t.findings →
        k ∈ t.completed_actions ∨ ∃ e, v = Finding.errorMarker e) := by
  have hmain := reactLoopF_preserves decide runTool N
    (fun t => ∀ k v, (k, v) ∈ t.findings →
      k ∈ t.completed_actions ∨ ∃ e, v = Finding.errorMarker e)
    (fun s hs => hs)
    (by
      intro d s hs
      unfold execute_action
      rcases lookupKey AVAILABLE_TOOLS d.next_action with _ | c
      · exact hs
      · rcases runTool d.next_action s with v | e
        · intro k w hmem
          rcases mem_dictSet _ _ _ _ hmem with h1 | h1
          · simp at h1
            exact Or.inl (by simp [h1.1])
          · rcases hs k w h1 with h2 | h2
            · exact Or.inl (by simp [h2])
            · exact Or.inr h2
        · intro k w hmem
          rcases mem_dictSet _ _ _ _ hmem with h1 | h1
          · simp at h1
            exact Or.inr ⟨e, h1.2⟩
          · exact hs k w h1)
    N (ReActInit url) (by intro k v h; simp [ReActInit] at h)
  exact hmain

theorem C2_findings_invariant_witness :
    "scrape_url" ∈ (reactLoopF (fun _ => some ⟨"scrape_url", "r", true⟩)
        (fun _ _ => .ok "payload") 1 1
        (ReActInit "https://example.com")).1.completed_actions ∨
    ∃ e, Finding.data "payload" = Finding.errorMarker e :=
  (C2_findings_invariant (fun _ => some ⟨"scrape_url", "r", true⟩)
    (fun _ _ => .ok "payload") 1 "https://example.com").1
    "scrape_url" (Finding.data "payload") (by decide)

/-- C4: a malformed decision payload parses to the fallback stop
decision, and the loop, on receiving it at any point, terminates
immediately without touching the rest of the run state: `findings`,
`completed_actions` and `total_cost_estimate` are unchanged (only
`iteration` was incremented on loop entry), and the final report is
still compiled from that state. -/
theorem C4_parse_failure_stops (decide : ReActState → Option Decision)
    (runTool : String → ReActState → ToolOutcome) (N fuel : Nat)
    (s : ReActState) (hlt : s.iteration < N)
    (hdec : decide { s with iteration := s.iteration + 1 } =
      some (parse_decision none)) :
    (reactLoopF decide runTool N (fuel + 1) s).1 =
      { s with iteration := s.iteration + 1 } ∧
    (reactLoopF decide runTool N (fuel + 1) s).1.findings = s.findings ∧
    (reactLoopF decide runTool N (fuel + 1) s).1.completed_actions =
      s.completed_actions ∧
    (reactLoopF decide runTool N (fuel + 1) s).1.total_cost_estimate =
      s.total_cost_estimate ∧
    (compileFinalReport N
      (reactLoopF decide runTool N (fuel + 1) s).1).findings = s.findings ∧
    (compileFinalReport N
      (reactLoopF decide runTool N (fuel + 1) s).1).tools_executed =
      s.completed_actions := by
  have h := reactLoopF_succ_stop decide runTool N fuel s
    (parse_decision none) hlt hdec rfl
  rw [h]
  exact ⟨rfl, rfl, rfl, rfl, rfl, rfl⟩

theorem C4_parse_failure_stops_witness :
    (reactLoopF (fun _ => some (parse_decision none))
        (fun _ _ => .raises "unreached") 2 1
        (ReActInit "https://example.com")).1 =
      { ReActInit "https://example.com" with iteration := 0 + 1 } ∧
    (reactLoopF (fun _ => some (parse_decision none))
        (fun _ _ => .raises "unreached") 2 1
        (ReActInit "https://example.com")).1.findings =
      (ReActInit "https://example.com").findings ∧
    (reactLoopF (fun _ => some (parse_decision none))
        (fun _ _ => .raises "unreached") 2 1
        (ReActInit "https://example.com")).1.completed_actions =
      (ReActInit "https://example.com").completed_actions ∧
    (reactLoopF (fun _ => some (parse_decision none))
        (fun _ _ => .raises "unreached") 2 1
        (ReActInit "https://example.com")).1.total_cost_estimate =
      (ReActInit "https://example.com").total_cost_estimate ∧
    (compileFinalReport 2 (reactLoopF (fun _ => some (parse_decision none))
        (fun _ _ => .raises "unreached") 2 1
        (ReActInit "https://example.com")).1).findings =
      (ReActInit "https://example.com").findings ∧
    (compileFinalReport 2 (reactLoopF (fun _ => some (parse_decision none))
        (fun _ _ => .raises "unreached") 2 1
        (ReActInit "https://example.com")).1).tools_executed =
      (ReActInit "https://example.com").completed_actions :=
  C4_parse_failure_stops (fun _ => some (parse_decision none))
    (fun _ _ => .raises "unreached") 2 0
    (ReActInit "https://example.com") (by decide) rfl

/-- C3: the claim requires every run of every streaming mode to emit
exactly one terminal event, as the last event.  The code violates it:
a fully successful run of `agent_scan_stream.event_generator`
(`app/routes/agent_scan.py`; no step raises, no keywords, for a page
whose fetch returned without error) emits
`scrape, onpage_errors, technical, sitemap_analysis` and then ends the
stream with zero terminal events — the `try` body stops at the
`# ...existing code for performance, authority, etc...` comment and
never yields `done`. -/
theorem C3_agent_scan_no_terminal :
    agentScanEvents
        ⟨.ok "issues", .ok "kw", .ok "tech", none, .ok "sitemap"⟩
        ⟨none, true, "requests", "html"⟩ [] =
      ["scrape", "onpage_errors", "technical", "sitemap_analysis"] ∧
    terminalCount
      ["scrape", "onpage_errors", "technical", "sitemap_analysis"] = 0 ∧
    (⟨none, true, "requests", "html"⟩ : ScrapeData).error = none := by
  decide

/-- C5 counterexample: a run of `scan_full_stream.event_generator`
whose fetch failed (the scrape result is the
`"Impossibile raggiungere il sito"` error dict) does not end: every
subsequent analysis step still runs, twelve further events follow the
`scrape` event, and the stream ends with the normal `done` event
rather than a minimal fatal report. -/
theorem C5_counterexample :
    scanFullEvents
        ⟨.ok "t1", .ok "d", .ok "t2", none, .ok "sm", .ok "sc",
         .ok "ct", .ok "rk", .ok "rd"⟩
        ⟨some "Impossibile raggiungere il sito: timeout", false,
         "requests", ""⟩ none [] =
      ["scrape", "onpage_errors", "technical", "technical",
       "sitemap_analysis", "performance", "authority", "seo_score",
       "ai_autofix", "ai_schema", "ai_expanded_content", "ai_roadmap",
       "done"] ∧
    (⟨some "Impossibile raggiungere il sito: timeout", false,
      "requests", ""⟩ : ScrapeData).error.isSome = true := by
  decide

/-- C5 (amended): a fetch failure is not fatal in
`scan_full_stream.event_generator`: the error result is inspected
nowhere, so for every scrape result — error or not — every subsequent
analysis step still executes (provided none of the unguarded steps
raises; the guarded steps always emit their event), and the stream
ends with the single terminal `done` event; the caller receives the
full event sequence, not a minimal fatal report. -/
theorem C5_fetch_not_fatal (o : ScanFullOracles) (scraped : ScrapeData)
    (kws : List String)
    (h1 : o.technical1.isOk = true) (h2 : o.detect.isOk = true)
    (h3 : o.technical2.isOk = true) (h4 : o.sitemap.isOk = true)
    (h5 : o.score.isOk = true) :
    scanFullEvents o scraped none kws =
      ["scrape", "onpage_errors"] ++
      (if kws.isEmpty then [] else ["keyword_analysis"]) ++
      ["technical", "technical", "sitemap_analysis", "performance",
       "authority", "seo_score", "ai_autofix", "ai_schema",
       "ai_expanded_content", "ai_roadmap", "done"] := by
  rcases ht1 : o.technical1 with v1 | e1
  case raises => rw [ht1] at h1; simp [ToolOutcome.isOk] at h1
  rcases hd : o.detect with v2 | e2
  case raises => rw [hd] at h2; simp [ToolOutcome.isOk] at h2
  rcases ht2 : o.technical2 with v3 | e3
  case raises => rw [ht2] at h3; simp [ToolOutcome.isOk] at h3
  rcases hsm : o.sitemap with v4 | e4
  case raises => rw [hsm] at h4; simp [ToolOutcome.isOk] at h4
  rcases hsc : o.score with v5 | e5
  case raises => rw [hsc] at h5; simp [ToolOutcome.isOk] at h5
  rcases hts : o.technical2Sitemap with _ | su <;>
    simp [scanFullEvents, ht1, hd, ht2, hsm, hsc, hts]

theorem C5_fetch_not_fatal_witness :
    scanFullEvents
        ⟨.ok "t1", .ok "d", .ok "t2", some "https://e.x/sitemap.xml",
         .ok "sm", .ok "sc", .ok "ct", .ok "rk", .ok "rd"⟩
        ⟨some "Impossibile raggiungere il sito: refused", false,
         "requests", ""⟩ none ["kw1"] =
      ["scrape", "onpage_errors"] ++
      (if (["kw1"] : List String).isEmpty then [] else ["keyword_analysis"]) ++
      ["technical", "technical", "sitemap_analysis", "performance",
       "authority", "seo_score", "ai_autofix", "ai_schema",
       "ai_expanded_content", "ai_roadmap", "done"] :=
  C5_fetch_not_fatal
    ⟨.ok "t1", .ok "d", .ok "t2", some "https://e.x/sitemap.xml",
     .ok "sm", .ok "sc", .ok "ct", .ok "rk", .ok "rd"⟩
    ⟨some "Impossibile raggiungere il sito: refused", false,
     "requests", ""⟩ ["kw1"] rfl rfl rfl rfl rfl

/-- C6 counterexample: the claim measures the TTL window from the
first call, but the cache measures it from the entry's insertion time.
With an entry inserted at time 0, a first call at time 299 is a
successful cache hit (no fetch, no error), and a second call at time
598 — only 299 seconds later, within the TTL window of the first
call — finds the entry expired, evicts it, performs a fresh network
fetch, and returns different data. -/
theorem C6_counterexample :
    (smart_scrape_url (fun _ => ⟨none, true, "", "fresh"⟩) (fun _ => "")
        (fun _ _ => ⟨none, true, "", "rendered"⟩)
        [("u", ⟨⟨none, true, "requests", "cached"⟩, 0⟩)]
        "u" 299).1.error = none ∧
    (smart_scrape_url (fun _ => ⟨none, true, "", "fresh"⟩) (fun _ => "")
        (fun _ _ => ⟨none, true, "", "rendered"⟩)
        [("u", ⟨⟨none, true, "requests", "cached"⟩, 0⟩)]
        "u" 299).2.2 = 0 ∧
    598 - 299 < CACHE_TTL_SECONDS ∧
    (smart_scrape_url (fun _ => ⟨none, true, "", "fresh"⟩) (fun _ => "")
        (fun _ _ => ⟨none, true, "", "rendered"⟩)
        (smart_scrape_url (fun _ => ⟨none, true, "", "fresh"⟩)
          (fun _ => "") (fun _ _ => ⟨none, true, "", "rendered"⟩)
          [("u", ⟨⟨none, true, "requests", "cached"⟩, 0⟩)]
          "u" 299).2.1
        "u" 598).2.2 ≠ 0 ∧
    (smart_scrape_url (fun _ => ⟨none, true, "", "fresh"⟩) (fun _ => "")
        (fun _ _ => ⟨none, true, "", "rendered"⟩)
        (smart_scrape_url (fun _ => ⟨none, true, "", "fresh"⟩)
          (fun _ => "") (fun _ _ => ⟨none, true, "", "rendered"⟩)
          [("u", ⟨⟨none, true, "requests", "cached"⟩, 0⟩)]
          "u" 299).2.1
        "u" 598).1 ≠
      (smart_scrape_url (fun _ => ⟨none, true, "", "fresh"⟩) (fun _ => "")
        (fun _ _ => ⟨none, true, "", "rendered"⟩)
        [("u", ⟨⟨none, true, "requests", "cached"⟩, 0⟩)]
        "u" 299).1 := by
  decide

/-- C6 (amended): when the first call is a cache miss (so the fetcher
actually fetches and, on success, caches at that moment), a second
call for the same URL within the TTL window of the first call performs
no underlying network fetch and returns exactly the first call's data,
with the cache unchanged.  In general the guarantee window runs from
the cached entry's insertion timestamp, not from the first call. -/
theorem C6_cache_idempotent (rf : String → ScrapeData)
    (pf : String → String) (er : String → String → ScrapeData)
    (c0 : Cache) (url : String) (t1 t2 : Nat)
    (hmiss : (cache_get c0 url t1).1 = none)
    (hsucc : (smart_scrape_url rf pf er c0 url t1).1.error = none)
    (hwin : t2 - t1 < CACHE_TTL_SECONDS) :
    smart_scrape_url rf pf er
        (smart_scrape_url rf pf er c0 url t1).2.1 url t2 =
      ((smart_scrape_url rf pf er c0 url t1).1,
       (smart_scrape_url rf pf er c0 url t1).2.1, 0) := by
  rw [smart_scrape_url_miss rf pf er c0 url t1 hmiss] at hsucc ⊢
  have hnone : (smart_scrape_fetch rf pf er url).1.error.isNone = true := by
    simp only at hsucc
    simp [hsucc]
  simp only [hnone, if_pos] at *
  have hhit : (cache_get (cache_set (cache_get c0 url t1).2 url
      (smart_scrape_fetch rf pf er url).1 t1) url t2).1 =
      some (smart_scrape_fetch rf pf er url).1 := by
    rw [cache_get_after_set _ _ _ _ _ hwin]
  rw [smart_scrape_url_hit rf pf er _ url t2 _ hhit,
    cache_get_after_set _ _ _ _ _ hwin]

theorem C6_cache_idempotent_witness :
    smart_scrape_url (fun _ => ⟨none, true, "", "page"⟩) (fun _ => "")
        (fun _ _ => ⟨none, true, "", "rendered"⟩)
        (smart_scrape_url (fun _ => ⟨none, true, "", "page"⟩)
          (fun _ => "") (fun _ _ => ⟨none, true, "", "rendered"⟩)
          [] "https://example.com" 10).2.1
        "https://example.com" 100 =
      ((smart_scrape_url (fun _ => ⟨none, true, "", "page"⟩)
          (fun _ => "") (fun _ _ => ⟨none, true, "", "rendered"⟩)
          [] "https://example.com" 10).1,
       (smart_scrape_url (fun _ => ⟨none, true, "", "page"⟩)
          (fun _ => "") (fun _ _ => ⟨none, true, "", "rendered"⟩)
          [] "https://example.com" 10).2.1, 0) :=
  C6_cache_idempotent (fun _ => ⟨none, true, "", "page"⟩) (fun _ => "")
    (fun _ _ => ⟨none, true, "", "rendered"⟩) [] "https://example.com"
    10 100 (by decide) (by decide) (by decide)

/-- C7: below capacity, `_cache_set` evicts nothing (it is exactly the
dict assignment, and every other key's binding is untouched); at
capacity (`len >= 50`), it evicts exactly one entry — the first
minimal-timestamp entry, whose timestamp is at most every other
entry's, chosen with no reference to the TTL or the current time —
before inserting the new binding. -/
theorem C7_cache_set_eviction (c : Cache) (url : String) (d : ScrapeData)
    (now : Nat) :
    (c.length < CACHE_MAX_SIZE →
      cache_set c url d now = dictSet c url ⟨d, now⟩ ∧
      ∀ k, k ≠ url →
        lookupKey (cache_set c url d now) k = lookupKey c k) ∧
    (CACHE_MAX_SIZE ≤ c.length →
      ∃ p, oldestEntry c = some p ∧ p ∈ c ∧
        (∀ q ∈ c, p.2.ts ≤ q.2.ts) ∧
        cache_set c url d now = dictSet (eraseKey c p.1) url ⟨d, now⟩ ∧
        (eraseKey c p.1).length + 1 = c.length) := by
  constructor
  · intro hlt
    have hcond : ¬(CACHE_MAX_SIZE ≤ c.length) := by omega
    constructor
    · simp only [cache_set, if_neg hcond]
    · intro k hk
      simp only [cache_set, if_neg hcond]
      exact lookupKey_dictSet_ne c url k ⟨d, now⟩ hk
  · intro hge
    have hne : c ≠ [] := by
      intro h
      rw [h] at hge
      simp [CACHE_MAX_SIZE] at hge
    obtain ⟨p, hp⟩ := oldestEntry_isSome c hne
    obtain ⟨hmem, hmin⟩ := oldestEntry_spec c p hp
    refine ⟨p, hp, hmem, hmin, ?_, ?_⟩
    · simp only [cache_set, if_pos hge, hp]
    · exact eraseKey_length c p.1
        (lookupKey_isSome_of_mem c p.1 p.2 hmem)

theorem C7_cache_set_eviction_witness :
    (cache_set [("a", ⟨⟨none, true, "requests", ""⟩, 7⟩)] "b"
        ⟨none, true, "requests", "x"⟩ 9 =
      dictSet [("a", ⟨⟨none, true, "requests", ""⟩, 7⟩)] "b"
        ⟨⟨none, true, "requests", "x"⟩, 9⟩) ∧
    (lookupKey (cache_set [("a", ⟨⟨none, true, "requests", ""⟩, 7⟩)] "b"
        ⟨none, true, "requests", "x"⟩ 9) "a" =
      lookupKey [("a", ⟨⟨none, true, "requests", ""⟩, 7⟩)] "a") ∧
    (∃ p, oldestEntry cacheAtCapacity = some p ∧ p ∈ cacheAtCapacity ∧
      (∀ q ∈ cacheAtCapacity, p.2.ts ≤ q.2.ts) ∧
      cache_set cacheAtCapacity "b" ⟨none, true, "requests", "x"⟩ 9 =
        dictSet (eraseKey cacheAtCapacity p.1) "b"
          ⟨⟨none, true, "requests", "x"⟩, 9⟩ ∧
      (eraseKey cacheAtCapacity p.1).length + 1 =
        cacheAtCapacity.length) :=
  ⟨((C7_cache_set_eviction [("a", ⟨⟨none, true, "requests", ""⟩, 7⟩)] "b"
      ⟨none, true, "requests", "x"⟩ 9).1 (by decide)).1,
   ((C7_cache_set_eviction [("a", ⟨⟨none, true, "requests", ""⟩, 7⟩)] "b"
      ⟨none, true, "requests", "x"⟩ 9).1 (by decide)).2 "a" (by decide),
   (C7_cache_set_eviction cacheAtCapacity "b"
      ⟨none, true, "requests", "x"⟩ 9).2 (by decide)⟩

/-- C8: on a cache miss, the browser-rendering tier
(`fetch_page_playwright`) is invoked — the call's fetch count is 2
instead of 1 — if and only if the non-rendering `scrape_url` result
carries an error or lacks the `structured_data_present` marker; when
the non-rendering fetch succeeds with the marker present, no browser
rendering occurs. -/
theorem C8_playwright_trigger (rf : String → ScrapeData)
    (pf : String → String) (er : String → String → ScrapeData)
    (c : Cache) (url : String) (now : Nat)
    (hmiss : (cache_get c url now).1 = none) :
    ((smart_scrape_url rf pf er c url now).2.2 = 2 ↔
      ((rf url).error.isSome = true ∨
       (rf url).structured_data_present = false)) ∧
    ((rf url).error = none → (rf url).structured_data_present = true →
      (smart_scrape_url rf pf er c url now).2.2 = 1) := by
  rw [smart_scrape_url_miss rf pf er c url now hmiss]
  constructor
  · show 1 + (smart_scrape_fetch rf pf er url).2 = 2 ↔ _
    rw [smart_scrape_fetch_count]
    by_cases h : ((rf url).error.isSome || !(rf url).structured_data_present)
        = true
    · rw [if_pos h]
      simp only [Bool.or_eq_true, Bool.not_eq_true'] at h
      exact ⟨fun _ => h, fun _ => rfl⟩
    · rw [if_neg h]
      simp only [Bool.or_eq_true, Bool.not_eq_true'] at h
      exact ⟨fun habs => absurd habs (by decide), fun hd => absurd hd h⟩
  · intro he hs
    show 1 + (smart_scrape_fetch rf pf er url).2 = 1
    rw [smart_scrape_fetch_count]
    have hcond : ((rf url).error.isSome || !(rf url).structured_data_present)
        = false := by rw [he, hs]; rfl
    rw [if_neg (by simp [hcond])]

theorem C8_playwright_trigger_witness :
    ((smart_scrape_url (fun _ => ⟨none, true, "", "page"⟩)
        (fun _ => "<html>r</html>")
        (fun _ _ => ⟨none, true, "", "rendered"⟩)
        [] "https://example.com" 5).2.2 = 2 ↔
      (((fun (_ : String) => (⟨none, true, "", "page"⟩ : ScrapeData))
          "https://example.com").error.isSome = true ∨
       ((fun (_ : String) => (⟨none, true, "", "page"⟩ : ScrapeData))
          "https://example.com").structured_data_present = false)) ∧
    (smart_scrape_url (fun _ => ⟨none, true, "", "page"⟩)
        (fun _ => "<html>r</html>")
        (fun _ _ => ⟨none, true, "", "rendered"⟩)
        [] "https://example.com" 5).2.2 = 1 :=
  ⟨(C8_playwright_trigger (fun _ => ⟨none, true, "", "page"⟩)
      (fun _ => "<html>r</html>") (fun _ _ => ⟨none, true, "", "rendered"⟩)
      [] "https://example.com" 5 (by decide)).1,
   (C8_playwright_trigger (fun _ => ⟨none, true, "", "page"⟩)
      (fun _ => "<html>r</html>") (fun _ _ => ⟨none, true, "", "rendered"⟩)
      [] "https://example.com" 5 (by decide)).2 rfl rfl⟩

theorem weighted_total_score_none_eq (errors : List Issue) :
    weighted_total_score errors none =
      (if ((score_by_category errors).foldl
            (fun t p => t + catWeight p.1) 0) = 0 then none
       else some (min (max (round
          (((score_by_category errors).foldl
              (fun t p => t + (p.2 : ℚ) * catWeight p.1) 0) /
           ((score_by_category errors).foldl
              (fun t p => t + catWeight p.1) 0))) 0) 100)) := rfl

theorem weighted_total_score_some_eq (errors : List Issue) (p : Int) :
    weighted_total_score errors (some p) =
      (if ((score_by_category errors).foldl
            (fun t q => t + catWeight q.1) 0) + 10/100 = 0 then none
       else some (min (max (round
          ((((score_by_category errors).foldl
              (fun t q => t + (q.2 : ℚ) * catWeight q.1) 0) +
            (p : ℚ) * (10/100)) /
           (((score_by_category errors).foldl
              (fun t q => t + catWeight q.1) 0) + 10/100))) 0) 100)) := rfl

/-- Two issues in the same category (as the quick scenario's two
on-page issues are) accumulate into one category bucket, and the
weighted average over a single bucket is exactly that bucket's score
`100 - (p1 + p2)` when the summed penalty lies in `[0, 100]`. -/
theorem weighted_total_score_pair_same_cat (i1 i2 : Issue)
    (hcat : i1.category.getD "other" = i2.category.getD "other")
    (hp0 : 0 ≤ i1.penalty.getD 0 + i2.penalty.getD 0)
    (hp : i1.penalty.getD 0 + i2.penalty.getD 0 ≤ 100) :
    weighted_total_score [i1, i2] none =
      some (100 - (i1.penalty.getD 0 + i2.penalty.getD 0)) := by
  have hpen : penaltiesByCategory [i1, i2] =
      [(i1.category.getD "other",
        i1.penalty.getD 0 + i2.penalty.getD 0)] := by
    unfold penaltiesByCategory
    simp only [List.foldl]
    have h1 : penaltiesStep [] i1 =
        [(i1.category.getD "other", i1.penalty.getD 0)] := by
      simp [penaltiesStep, lookupKey]
    rw [h1]
    unfold penaltiesStep
    rw [← hcat]
    simp [lookupKey, dictSet]
  have hsc : score_by_category [i1, i2] =
      [(i1.category.getD "other",
        100 - (i1.penalty.getD 0 + i2.penalty.getD 0))] := by
    unfold score_by_category
    rw [hpen]
    simp only [List.map]
    rw [max_eq_right (by omega :
      (0 : Int) ≤ 100 - (i1.penalty.getD 0 + i2.penalty.getD 0))]
  rw [weighted_total_score_none_eq, hsc]
  simp only [List.foldl, zero_add]
  have hw := catWeight_pos (i1.category.getD "other")
  rw [if_neg (ne_of_gt hw)]
  rw [mul_div_cancel_right₀ _ (ne_of_gt hw)]
  rw [round_intCast]
  rw [max_eq_left (by omega), min_eq_left (by omega)]

/-- C9 counterexample: in the quick scenario (fetch succeeds, issue
detection returns exactly two issues), the score step is
`SEOScoringEngine.weighted_total_score`, a category-weighted average —
with one issue of category `onpage`, penalty 20 and one of category
`technical`, penalty 10 the final score is `round((80*0.30 +
90*0.35)/0.65) = 85`, not `100 - (20 + 10) = 70`. -/
theorem C9_counterexample :
    (UnifiedExecuteStreamQuick
        ⟨.ok ⟨none, true, "requests", "html"⟩,
         .ok [⟨some "onpage", some 20, none⟩,
              ⟨some "technical", some 10, none⟩]⟩).1.seo_score = 85 ∧
    (UnifiedExecuteStreamQuick
        ⟨.ok ⟨none, true, "requests", "html"⟩,
         .ok [⟨some "onpage", some 20, none⟩,
              ⟨some "technical", some 10, none⟩]⟩).1.seo_score ≠
      100 - (20 + 10) := by
  have hsc : score_by_category
      [⟨some "onpage", some 20, none⟩, ⟨some "technical", some 10, none⟩] =
      [("onpage", 80), ("technical", 90)] := by decide
  have h1 : catWeight "onpage" = 30/100 := by
    simp [catWeight, CATEGORY_WEIGHTS, lookupKey]
  have h2 : catWeight "technical" = 35/100 := by
    simp [catWeight, CATEGORY_WEIGHTS, lookupKey]
  have hw : weighted_total_score
      [⟨some "onpage", some 20, none⟩, ⟨some "technical", some 10, none⟩]
      none = some 85 := by
    rw [weighted_total_score_none_eq, hsc]
    simp only [List.foldl, zero_add, h1, h2]
    rw [if_neg (by norm_num)]
    norm_num [round_eq]
  have hpipe : (UnifiedExecuteStreamQuick
      ⟨.ok ⟨none, true, "requests", "html"⟩,
       .ok [⟨some "onpage", some 20, none⟩,
            ⟨some "technical", some 10, none⟩]⟩).1.seo_score = 85 := by
    simp [UnifiedExecuteStreamQuick, MODES_quick, runPipelineStream,
      execute_node, PipelineInit, pipelineDataEvent, hw]
  exact ⟨hpipe, by rw [hpipe]; decide⟩

/-- C9 (amended): in the quick scenario with a successful fetch and
exactly two detected issues, all three quick nodes (`scrape`,
`detect_issues`, `score`) execute with no error log entry, the stream
ends with the single `done` event, and the final score is
`SEOScoringEngine.weighted_total_score(issues)` — which equals
`100 - (issue1.penalty + issue2.penalty)` exactly when the two issues
share one category and the summed penalty lies in `[0, 100]`; for
issues of different categories the score is the weighted
per-category average instead. -/
theorem C9_quick_two_issue_score (d : ScrapeData) (i1 i2 : Issue)
    (hcat : i1.category.getD "other" = i2.category.getD "other")
    (hp0 : 0 ≤ i1.penalty.getD 0 + i2.penalty.getD 0)
    (hp : i1.penalty.getD 0 + i2.penalty.getD 0 ≤ 100) :
    (UnifiedExecuteStreamQuick ⟨.ok d, .ok [i1, i2]⟩).1.seo_score =
      100 - (i1.penalty.getD 0 + i2.penalty.getD 0) ∧
    (UnifiedExecuteStreamQuick ⟨.ok d, .ok [i1, i2]⟩).2 =
      [.log "scrape" "running", .log "scrape" "done", .payload "scrape",
       .log "detect_issues" "running", .log "detect_issues" "done",
       .payload "onpage_errors",
       .log "score" "running", .log "score" "done", .payload "seo_score",
       .doneEv] := by
  have hw := weighted_total_score_pair_same_cat i1 i2 hcat hp0 hp
  constructor <;>
    simp [UnifiedExecuteStreamQuick, MODES_quick, runPipelineStream,
      execute_node, PipelineInit, pipelineDataEvent, hw]

theorem C9_quick_two_issue_score_witness :
    (UnifiedExecuteStreamQuick
        ⟨.ok ⟨none, true, "requests", "html"⟩,
         .ok [⟨some "onpage", some 12, none⟩,
              ⟨some "onpage", some 30, none⟩]⟩).1.seo_score =
      100 - ((⟨some "onpage", some 12, none⟩ : Issue).penalty.getD 0 +
        (⟨some "onpage", some 30, none⟩ : Issue).penalty.getD 0) ∧
    (UnifiedExecuteStreamQuick
        ⟨.ok ⟨none, true, "requests", "html"⟩,
         .ok [⟨some "onpage", some 12, none⟩,
              ⟨some "onpage", some 30, none⟩]⟩).2 =
      [.log "scrape" "running", .log "scrape" "done", .payload "scrape",
       .log "detect_issues" "running", .log "detect_issues" "done",
       .payload "onpage_errors",
       .log "score" "running", .log "score" "done", .payload "seo_score",
       .doneEv] :=
  C9_quick_two_issue_score ⟨none, true, "requests", "html"⟩
    ⟨some "onpage", some 12, none⟩ ⟨some "onpage", some 30, none⟩
    (by decide) (by decide) (by decide)

/-- C10: `SEOScoringEngine.weighted_total_score` (and hence
`generate_output`) returns an integer clamped to `[0, 100]` whenever
the errors list is non-empty or `performance_score` is not `None` (the
accumulated weights are then strictly positive); when the errors list
is empty and `performance_score` is `None`, the divisor
`total_weights` is zero and the computation raises
(`ZeroDivisionError`) instead of returning a score. -/
theorem C10_weighted_score_clamped (errors : List Issue)
    (perf : Option Int) :
    ((errors ≠ [] ∨ perf ≠ none) →
      ∃ n, weighted_total_score errors perf = some n ∧
        0 ≤ n ∧ n ≤ 100 ∧
        generate_output errors perf = some (n, score_by_category errors)) ∧
    (errors = [] → perf = none →
      weighted_total_score errors perf = none ∧
      generate_output errors perf = none) := by
  constructor
  · intro hor
    rcases perf with _ | p
    · have herr : errors ≠ [] := by
        rcases hor with h | h
        · exact h
        · exact absurd rfl h
      have hnil : score_by_category errors ≠ [] := by
        unfold score_by_category
        intro hmap
        exact penaltiesByCategory_ne_nil errors herr
          (List.map_eq_nil_iff.mp hmap)
      have htw := foldl_weights_pos (score_by_category errors) hnil
      rw [weighted_total_score_none_eq]
      rw [if_neg (ne_of_gt htw)]
      refine ⟨_, rfl, le_min (le_max_right _ _) (by norm_num),
        min_le_right _ _, ?_⟩
      unfold generate_output
      rw [weighted_total_score_none_eq, if_neg (ne_of_gt htw)]
    · have hbase : (0 : ℚ) ≤ (score_by_category errors).foldl
          (fun t q => t + catWeight q.1) 0 := foldl_weights_lb _ 0
      have htw : (0 : ℚ) < (score_by_category errors).foldl
          (fun t q => t + catWeight q.1) 0 + 10/100 := by
        have : (0 : ℚ) < 10/100 := by norm_num
        linarith
      rw [weighted_total_score_some_eq]
      rw [if_neg (ne_of_gt htw)]
      refine ⟨_, rfl, le_min (le_max_right _ _) (by norm_num),
        min_le_right _ _, ?_⟩
      unfold generate_output
      rw [weighted_total_score_some_eq, if_neg (ne_of_gt htw)]
  · intro h1 h2
    subst h1
    subst h2
    exact ⟨rfl, rfl⟩

theorem C10_weighted_score_clamped_witness :
    (∃ n, weighted_total_score [⟨some "content", some 250, none⟩] none =
        some n ∧ 0 ≤ n ∧ n ≤ 100 ∧
        generate_output [⟨some "content", some 250, none⟩] none =
          some (n, score_by_category [⟨some "content", some 250, none⟩])) ∧
    (weighted_total_score [] none = none ∧
      generate_output [] none = none) :=
  ⟨(C10_weighted_score_clamped [⟨some "content", some 250, none⟩]
      none).1 (Or.inl (by decide)),
   (C10_weighted_score_clamped [] none).2 rfl rfl⟩

end SeoAgentPro
